import Mathlib

/-!
Verification of the Mosaic upload-pipeline client (`src/api-call/upload_video.py`)
and the webhook listeners (`src/api-call/webhook_listener.py`,
`src/youtube-automation/webhook_listener.py`) against their natural-language
specification.  The Python source is shallowly embedded: each pure decision made
by the scripts (header construction, status-code dispatch, response-body
validation, history bookkeeping) becomes a Lean function over explicit inputs,
and the `main` orchestration becomes a function from an environment of oracle
responses to an outcome together with a trace of the calls performed.
-/

/-! ## Content-type resolution (`determine_content_type`, upload_video.py:62-77) -/

/-- ASCII lower-casing of one character; agrees with Python's `str.lower`
on the ASCII inputs handled by the scripts (file extensions, method tags,
error-detail strings). -/
def asciiLower (c : Char) : Char :=
  if 'A' ≤ c ∧ c ≤ 'Z' then Char.ofNat (c.toNat + 32) else c

/-- ASCII upper-casing of one character; agrees with Python's `str.upper`
on ASCII inputs. -/
def asciiUpper (c : Char) : Char :=
  if 'a' ≤ c ∧ c ≤ 'z' then Char.ofNat (c.toNat - 32) else c

/-- String lower-casing, `str.lower` on ASCII strings. -/
def strLower (s : String) : String := String.mk (s.toList.map asciiLower)

/-- String upper-casing, `str.upper` on ASCII strings. -/
def strUpper (s : String) : String := String.mk (s.toList.map asciiUpper)

/-- Index of the last occurrence of a character in a character list,
mirroring Python's `str.rfind` (which returns -1 when absent, modelled
here as `none`). -/
def lastIndexOf (c : Char) : List Char → Option Nat
  | [] => none
  | x :: xs =>
    match lastIndexOf c xs with
    | some i => some (i + 1)
    | none => if x = c then some 0 else none

/-- The extension part of `os.path.splitext` (posixpath semantics): the suffix
from the last dot of the final path component, except that a run of leading
dots of that component never starts an extension. -/
def splitext_ext (p : String) : String :=
  let cs := p.toList
  let sepIndex : Int := match lastIndexOf '/' cs with
    | some i => (i : Int)
    | none => -1
  let dotIndex : Int := match lastIndexOf '.' cs with
    | some i => (i : Int)
    | none => -1
  if sepIndex < dotIndex then
    let stem := (cs.drop (sepIndex + 1).toNat).take (dotIndex - sepIndex - 1).toNat
    if stem.any (fun c => c ≠ '.') then
      String.mk (cs.drop dotIndex.toNat)
    else ""
  else ""

/-- The extension-to-MIME table of `determine_content_type`
(upload_video.py:67-74). -/
def content_type_map : List (String × String) :=
  [(".mp4", "video/mp4"),
   (".mov", "video/quicktime"),
   (".avi", "video/x-msvideo"),
   (".webm", "video/webm"),
   (".mkv", "video/x-matroska"),
   (".m4v", "video/x-m4v")]

/-- Embedding of `determine_content_type` (upload_video.py:62-77).  A `none` or
empty explicit content type is falsy in Python, so the table lookup runs; the
lookup key is the lower-cased extension and the default is `video/mp4`. -/
def determine_content_type (file_path : String) (explicit : Option String) : String :=
  match explicit with
  | some e =>
    if e ≠ "" then e
    else (content_type_map.lookup (strLower (splitext_ext file_path))).getD "video/mp4"
  | none => (content_type_map.lookup (strLower (splitext_ext file_path))).getD "video/mp4"

/-- Written from the spec's words, for comparison with the source: content-type
resolution with "a generic binary fallback" (`application/octet-stream`) for
extensions outside the table. -/
def determine_content_type_specmodel (file_path : String) (explicit : Option String) : String :=
  match explicit with
  | some e =>
    if e ≠ "" then e
    else (content_type_map.lookup (strLower (splitext_ext file_path))).getD "application/octet-stream"
  | none => (content_type_map.lookup (strLower (splitext_ext file_path))).getD "application/octet-stream"

/-! ## Resumable transfer request (`upload_video_resumable`, upload_video.py:157-201) -/

/-- The single HTTP request issued by `upload_video_resumable`: destination,
HTTP verb, declared headers, and the fact that the body is the raw file stream
(`data=f`), never a multipart form (`files=`). -/
structure ResumableRequest where
  url : String
  httpMethod : String
  headers : List (String × String)
  bodyIsRawFile : Bool
  deriving DecidableEq

/-- Embedding of the request construction in `upload_video_resumable`
(upload_video.py:170-192): `method.upper() == "POST"` picks the resumable POST
branch with the `x-goog-resumable: start` marker and an explicit
`Content-Length`; every other method tag falls to the PUT branch, which
declares only `Content-Type`.  Both branches stream the open file as the raw
request body. -/
def upload_video_resumable_request (upload_url method content_type : String)
    (file_size : Nat) : ResumableRequest :=
  if strUpper method = "POST" then
    { url := upload_url
      httpMethod := "POST"
      headers := [("x-goog-resumable", "start"),
                  ("Content-Type", content_type),
                  ("Content-Length", toString file_size)]
      bodyIsRawFile := true }
  else
    { url := upload_url
      httpMethod := "PUT"
      headers := [("Content-Type", content_type)]
      bodyIsRawFile := true }

/-- Outcome of the transfer status check (upload_video.py:194-201). -/
inductive TransferResult where
  | ok
  | failed (status : Nat) (msg : String)
  deriving DecidableEq

/-- Embedding of the status check after the transfer request
(upload_video.py:194-201): 200, 201 and 204 succeed; anything else raises
`Exception("Upload failed: HTTP {status}")`. -/
def upload_transfer_result (status : Nat) : TransferResult :=
  if status = 200 ∨ status = 201 ∨ status = 204 then .ok
  else .failed status ("Upload failed: HTTP " ++ toString status)

/-! ## Negotiation (`get_upload_url_with_metadata`, upload_video.py:80-154) -/

/-- Substring containment on character lists, mirroring Python's `in` test for
strings. -/
def containsSub (needle : List Char) : List Char → Bool
  | [] => needle.isEmpty
  | c :: tl => needle.isPrefixOf (c :: tl) || containsSub needle tl

/-- True when an error-detail string mentions "duration", case-insensitively:
Python `"duration" in error_detail.lower()` (upload_video.py:117). -/
def mentions_duration (detail : String) : Bool :=
  containsSub "duration".toList (strLower detail).toList

/-- JSON body of a `POST /videos/get_upload_url` response, restricted to the
keys the client reads: the three required fields and the error detail.
`none` models an absent key. -/
structure NegotiationBody where
  video_id : Option String
  upload_url : Option String
  method : Option String
  detail : Option String
  deriving DecidableEq

/-- A negotiation response as the client observes it: HTTP status plus parsed
JSON body. -/
structure NegotiationResponse where
  status : Nat
  body : NegotiationBody
  deriving DecidableEq

/-- Result of the negotiation step, mirroring the exits of
`get_upload_url_with_metadata`: the 413 limit rejection (with its
duration-vs-size classification and the detail string), the 400 metadata
rejection, the `raise_for_status` transport failure, the missing-field
protocol failure, or the returned `(video_id, upload_url, method)` triple. -/
inductive NegResult where
  | limitExceeded (duration : Bool) (detail : String)
  | invalidMetadata (detail : String)
  | transportFailure (status : Nat)
  | missingField (field : String)
  | ok (video_id upload_url method : String)
  deriving DecidableEq

/-- Embedding of the response handling in `get_upload_url_with_metadata`
(upload_video.py:104-154): status 413 exits with the limit rejection,
classifying duration vs size by the detail string (default
"File too large or too long"); status 400 exits with the metadata rejection;
any other 4xx/5xx makes `raise_for_status` raise, exiting as a transport
failure; otherwise the body is checked for `video_id`, `upload_url`, `method`
in that order, exiting on the first missing one, and the triple is returned. -/
def get_upload_url_with_metadata (r : NegotiationResponse) : NegResult :=
  if r.status = 413 then
    let d := r.body.detail.getD "File too large or too long"
    .limitExceeded (mentions_duration d) d
  else if r.status = 400 then
    .invalidMetadata (r.body.detail.getD "Invalid metadata")
  else if 400 ≤ r.status ∧ r.status < 600 then
    .transportFailure r.status
  else
    match r.body.video_id with
    | none => .missingField "video_id"
    | some v =>
      match r.body.upload_url with
      | none => .missingField "upload_url"
      | some u =>
        match r.body.method with
        | none => .missingField "method"
        | some m => .ok v u m

/-! ## Finalize (`finalize_upload`, upload_video.py:204-234) -/

/-- A finalize response as the client observes it: status, whether the
`content-type` header starts with `application/json`, and the body's optional
`detail` field. -/
structure FinalizeResponse where
  status : Nat
  contentTypeJson : Bool
  detail : Option String
  deriving DecidableEq

/-- Result of the finalize step as the code reports it: success, or the raised
`Exception("Finalization failed: HTTP {status}")` together with the detail
string printed just before the raise. -/
inductive FinResult where
  | ok
  | failed (status : Nat) (detail : String)
  deriving DecidableEq

/-- The error detail extracted by `finalize_upload` (upload_video.py:227-228):
the JSON body is consulted only when the content-type header is JSON, and a
missing detail defaults to "Unknown error". -/
def finalize_error_detail (r : FinalizeResponse) : String :=
  (if r.contentTypeJson then r.detail else none).getD "Unknown error"

/-- Embedding of `finalize_upload` (upload_video.py:204-234): status 200
returns success; every other status takes the single failure path, raising an
exception carrying the status after printing the extracted detail. -/
def finalize_upload (r : FinalizeResponse) : FinResult :=
  if r.status = 200 then .ok
  else .failed r.status (finalize_error_detail r)

/-- The finalize outcome taxonomy the spec prescribes (§4.4): terminal success,
a 413 limit rejection classified as duration or size by the detail string, or
a transport failure for every other non-200 status. -/
inductive FinSpecResult where
  | ok
  | durationExceeded (detail : String)
  | sizeExceeded (detail : String)
  | transportFailure (status : Nat) (detail : String)
  deriving DecidableEq

/-- Written from the spec's words, for comparison with the source: finalize
with the 413 response classified as `DurationExceeded` when its detail mentions
duration and `SizeExceeded` otherwise, and only the remaining non-200 statuses
reported as transport failures. -/
def finalize_upload_specmodel (r : FinalizeResponse) : FinSpecResult :=
  if r.status = 200 then .ok
  else if r.status = 413 then
    let d := finalize_error_detail r
    if mentions_duration d then .durationExceeded d else .sizeExceeded d
  else .transportFailure r.status (finalize_error_detail r)

/-- The correspondence the claim asserts between the code's finalize report and
the spec's taxonomy: success matches success, and the generic failure report
carrying status and detail is exactly the spec's transport-failure class; a
classified 413 limit rejection has no generic counterpart. -/
def finalizeAgrees : FinResult → FinSpecResult → Bool
  | .ok, .ok => true
  | .failed s d, .transportFailure s2 d2 => s == s2 && d == d2
  | _, _ => false

/-! ## Transfer-method dispatch and the legacy signed-form transfer -/

/-- The spec's transfer-method tag carried by an UploadTarget (§3): one of
signed-form, resumable-post, resumable-put. -/
inductive MethodTag where
  | signedForm
  | resumablePost
  | resumablePut
  deriving DecidableEq

/-- The spec's UploadTarget (§3): server-issued asset id, destination URL,
method tag, and (for the signed-form method) the form-field mapping. -/
structure UploadTarget where
  asset_id : String
  url : String
  method : MethodTag
  fields : List (String × String)
  deriving DecidableEq

/-- The two transfer mechanisms distinguished by the spec: a streamed raw
request body versus a multipart form body. -/
inductive TransferMechanism where
  | streamedBody
  | multipartForm
  deriving DecidableEq

/-- Mechanism realized by a request of the resumable executor. -/
def mechanism_of_request (r : ResumableRequest) : TransferMechanism :=
  if r.bodyIsRawFile then .streamedBody else .multipartForm

/-- Modelled from the spec: the legacy signed-form transfer executor is not
present under src/ — only the upfront flow's resumable executor
(`upload_video_resumable`) is.  Per §4.3 the dispatch reads only the method
tag: the signed-form tag takes the multipart-form path, and each resumable tag
takes the source's streamed-body request construction. -/
def transfer_executor_mechanism (t : UploadTarget) (content_type : String)
    (file_size : Nat) : TransferMechanism :=
  match t.method with
  | .signedForm => .multipartForm
  | .resumablePost =>
    mechanism_of_request (upload_video_resumable_request t.url "POST" content_type file_size)
  | .resumablePut =>
    mechanism_of_request (upload_video_resumable_request t.url "PUT" content_type file_size)

/-- One part of a multipart form body: a plain form field, or the named file
part. -/
inductive FormPart where
  | field (name value : String)
  | filePart (name filename content_type : String)
  deriving DecidableEq

/-- Modelled from the spec: the legacy signed-form transfer is absent from
src/.  Per §4.3 the multipart body replays the signed form fields verbatim and
in order before the file, which is attached as a named part. -/
def signed_form_parts (fields : List (String × String))
    (filename content_type : String) : List FormPart :=
  fields.map (fun p => FormPart.field p.1 p.2) ++
    [FormPart.filePart "file" filename content_type]

/-- Outcome taxonomy of the signed-form transfer (§4.3). -/
inductive SignedFormResult where
  | ok
  | policyRejected (body : String)
  | transportFailure (status : Nat) (body : String)
  deriving DecidableEq

/-- Modelled from the spec: the legacy signed-form transfer is absent from
src/.  Per §4.3, success is recognized strictly by HTTP 204, HTTP 400 is the
signing-policy violation `PolicyRejected`, and any other status is a transfer
transport failure with status and body. -/
def signed_form_outcome (status : Nat) (body : String) : SignedFormResult :=
  if status = 204 then .ok
  else if status = 400 then .policyRejected body
  else .transportFailure status body

/-! ## The orchestration in `main` (upload_video.py:237-286) -/

/-- The locally probed video metadata (`get_video_metadata`,
upload_video.py:39-59). -/
structure VideoMetadata where
  width : Nat
  height : Nat
  duration_ms : Nat
  file_size : Nat
  deriving DecidableEq

/-- One observable call performed by a run of `main`: the local file-existence
check, the local metadata probe, and the three network calls — negotiation,
the transfer (carrying the request it issues), and finalize. -/
inductive Ev where
  | checkFile
  | probeCall
  | negotiate
  | transfer (req : ResumableRequest)
  | finalize
  deriving DecidableEq

/-- Whether an event is a network call. -/
def isNetworkCall : Ev → Bool
  | .checkFile => false
  | .probeCall => false
  | .negotiate => true
  | .transfer _ => true
  | .finalize => true

/-- The environment a run of `main` executes against: whether
`os.path.isfile` succeeds, what the metadata probe yields (`none` = moviepy
failed to decode the file), the request arguments, and the responses the three
network calls would receive. -/
structure Env where
  fileExists : Bool
  probe : Option VideoMetadata
  filePath : String
  explicitContentType : Option String
  negResponse : NegotiationResponse
  transferStatus : Nat
  finResponse : FinalizeResponse
  deriving DecidableEq

/-- Terminal outcome of a run of `main`: each `sys.exit(1)` path and the
success path, carrying what the script reports there. -/
inductive RunOutcome where
  | fileNotFound
  | probeError
  | limitExceeded (duration : Bool) (detail : String)
  | invalidMetadata (detail : String)
  | negotiationFailure (status : Nat)
  | missingFieldFailure (field : String)
  | transferFailed (status : Nat)
  | finalizeFailed (status : Nat) (detail : String)
  | success (video_id : String)
  deriving DecidableEq

/-- Embedding of `main` (upload_video.py:237-286): the file-existence check
(line 246), then the metadata probe (line 256), then negotiation (line 259),
then the transfer — `upload_video_resumable` called with the negotiated URL
and method, the resolved content type and `metadata["file_size"]` (line 264) —
then finalize (line 269).  Every failure exits immediately; the trace records
the calls performed, in order. -/
def main_run (env : Env) : RunOutcome × List Ev :=
  if env.fileExists = false then (.fileNotFound, [.checkFile])
  else
    match env.probe with
    | none => (.probeError, [.checkFile, .probeCall])
    | some md =>
      match get_upload_url_with_metadata env.negResponse with
      | .limitExceeded d det => (.limitExceeded d det, [.checkFile, .probeCall, .negotiate])
      | .invalidMetadata det => (.invalidMetadata det, [.checkFile, .probeCall, .negotiate])
      | .transportFailure s => (.negotiationFailure s, [.checkFile, .probeCall, .negotiate])
      | .missingField f => (.missingFieldFailure f, [.checkFile, .probeCall, .negotiate])
      | .ok v u m =>
        let ct := determine_content_type env.filePath env.explicitContentType
        let req := upload_video_resumable_request u m ct md.file_size
        match upload_transfer_result env.transferStatus with
        | .failed s _m =>
          (.transferFailed s, [.checkFile, .probeCall, .negotiate, .transfer req])
        | .ok =>
          match finalize_upload env.finResponse with
          | .ok =>
            (.success v, [.checkFile, .probeCall, .negotiate, .transfer req, .finalize])
          | .failed s d =>
            (.finalizeFailed s d, [.checkFile, .probeCall, .negotiate, .transfer req, .finalize])

/-! ## Webhook listener history -/

/-- History bound shared by both listeners (api-call/webhook_listener.py:32,
youtube-automation/webhook_listener.py:49). -/
def MAX_HISTORY : Nat := 100

/-- A stored webhook history entry; the JSON payload is kept opaque. -/
structure WebhookEntry where
  timestamp : String
  path : String
  token : Option String
  data : String
  deriving DecidableEq

/-- Embedding of the history update in `handle_webhook`
(api-call/webhook_listener.py:129-141) and `webhook`
(youtube-automation/webhook_listener.py:211-234), identical in both listeners:
a request without a JSON body returns 400 before touching the history;
otherwise the entry is appended at the end and, when the length then exceeds
MAX_HISTORY, the oldest entry is popped from the front (`pop(0)`). -/
def handle_webhook_history (h : List WebhookEntry) (hasJson : Bool)
    (e : WebhookEntry) : List WebhookEntry :=
  if hasJson = false then h
  else
    let h2 := h ++ [e]
    if MAX_HISTORY < h2.length then h2.drop 1 else h2

/-- Embedding of the `/history` endpoint (api-call/webhook_listener.py:82-84,
youtube-automation/webhook_listener.py:195-201): the total count and the
Python slice `webhook_history[-10:]` — the at most 10 most recent entries. -/
def history_endpoint (h : List WebhookEntry) : Nat × List WebhookEntry :=
  (h.length, h.drop (h.length - 10))

/-! ## Concrete fixtures used by the witness theorems -/

/-- Claim C1 witness environment: a readable, probe-decodable file and a 413
negotiation response whose detail mentions duration. -/
def envC1 : Env :=
  ⟨true, some ⟨1920, 1080, 6000000, 50000000⟩, "clip.mp4", none,
   ⟨413, ⟨none, none, none, some "duration exceeds maximum"⟩⟩, 200, ⟨200, true, none⟩⟩

/-- Claim C8 witness environment: a 200 negotiation response missing the
`method` field. -/
def envC8 : Env :=
  ⟨true, some ⟨1920, 1080, 6000000, 50000000⟩, "clip.mp4", none,
   ⟨200, ⟨some "v1", some "https://store/x", none, none⟩⟩, 200, ⟨200, true, none⟩⟩

/-- Claim C9 witness environment: the file does not exist. -/
def envC9 : Env :=
  ⟨false, none, "missing.mp4", none,
   ⟨200, ⟨some "v1", some "https://store/x", some "POST", none⟩⟩, 200, ⟨200, true, none⟩⟩

/-- Claim C3 witness targets: same resumable tag, different URLs. -/
def tgtA : UploadTarget := ⟨"v1", "https://store/x", .resumablePost, []⟩

/-- Second claim C3 witness target. -/
def tgtB : UploadTarget := ⟨"v2", "https://other/y", .resumablePost, []⟩

/-- Claim C6 witness environment: successful negotiation handing back the PUT
method tag. -/
def envC6 : Env :=
  ⟨true, some ⟨1920, 1080, 6000000, 50⟩, "clip.mp4", none,
   ⟨200, ⟨some "v1", some "https://store/x", some "PUT", none⟩⟩, 200, ⟨200, true, none⟩⟩

/-- The transfer request the run on `envC6` issues. -/
def reqC6 : ResumableRequest :=
  upload_video_resumable_request "https://store/x" "PUT" "video/mp4" 50

/-- Claim C10 witness entry. -/
def entryW : WebhookEntry :=
  ⟨"2026-10-12T00:00:00Z", "/webhooks/mosaic", none, "payload"⟩

/-! ## Helper lemmas -/

/-- Both branches of the resumable executor stream the raw file as the request
body; neither builds a multipart form. -/
theorem resumable_request_raw (url m ct : String) (n : Nat) :
    (upload_video_resumable_request url m ct n).bodyIsRawFile = true := by
  unfold upload_video_resumable_request
  split <;> rfl

/-- The resumable executor's realized mechanism is the streamed body, for
every method tag it is handed. -/
theorem mechanism_resumable (url m ct : String) (n : Nat) :
    mechanism_of_request (upload_video_resumable_request url m ct n) =
      TransferMechanism.streamedBody := by
  simp [mechanism_of_request, resumable_request_raw]

/-- On a 2xx response the negotiation handler reaches the required-field
check, taking the fields in the order `video_id`, `upload_url`, `method`. -/
theorem get_upload_url_2xx (r : NegotiationResponse) (h1 : 200 ≤ r.status)
    (h2 : r.status < 300) :
    get_upload_url_with_metadata r =
      (match r.body.video_id with
       | none => .missingField "video_id"
       | some v =>
         match r.body.upload_url with
         | none => .missingField "upload_url"
         | some u =>
           match r.body.method with
           | none => .missingField "method"
           | some m => .ok v u m) := by
  unfold get_upload_url_with_metadata
  rw [if_neg (by omega), if_neg (by omega), if_neg (by omega)]

/-- Run shape when the file-existence check fails. -/
theorem main_run_file_false (env : Env) (h : env.fileExists = false) :
    main_run env = (.fileNotFound, [.checkFile]) := by
  simp [main_run, h]

/-- Run shape when the metadata probe fails. -/
theorem main_run_probe_none (env : Env) (h : env.fileExists = true)
    (hp : env.probe = none) :
    main_run env = (.probeError, [.checkFile, .probeCall]) := by
  simp [main_run, h, hp]

/-- Run shape when negotiation exits with the 413 limit rejection. -/
theorem main_run_limit (env : Env) (md : VideoMetadata) (d : Bool) (det : String)
    (hf : env.fileExists = true) (hp : env.probe = some md)
    (hn : get_upload_url_with_metadata env.negResponse = .limitExceeded d det) :
    main_run env = (.limitExceeded d det, [.checkFile, .probeCall, .negotiate]) := by
  simp [main_run, hf, hp, hn]

/-- Run shape when negotiation exits on a missing required field. -/
theorem main_run_missing (env : Env) (md : VideoMetadata) (f : String)
    (hf : env.fileExists = true) (hp : env.probe = some md)
    (hn : get_upload_url_with_metadata env.negResponse = .missingField f) :
    main_run env = (.missingFieldFailure f, [.checkFile, .probeCall, .negotiate]) := by
  simp [main_run, hf, hp, hn]

/-- Run shape after a successful negotiation, by cases on the transfer and
finalize results. -/
theorem main_run_ok (env : Env) (md : VideoMetadata) (v u m : String)
    (hf : env.fileExists = true) (hp : env.probe = some md)
    (hn : get_upload_url_with_metadata env.negResponse = .ok v u m) :
    main_run env =
      (let req := upload_video_resumable_request u m
        (determine_content_type env.filePath env.explicitContentType) md.file_size
       match upload_transfer_result env.transferStatus with
       | .failed s _m =>
         (.transferFailed s, [.checkFile, .probeCall, .negotiate, .transfer req])
       | .ok =>
         match finalize_upload env.finResponse with
         | .ok =>
           (.success v, [.checkFile, .probeCall, .negotiate, .transfer req, .finalize])
         | .failed s d =>
           (.finalizeFailed s d,
            [.checkFile, .probeCall, .negotiate, .transfer req, .finalize])) := by
  simp [main_run, hf, hp, hn]

/-- A negotiation call appears in the trace only after the file-existence
check and the metadata probe have both succeeded. -/
theorem negotiate_mem_elim (env : Env) (h : Ev.negotiate ∈ (main_run env).2) :
    env.fileExists = true ∧ ∃ md, env.probe = some md := by
  by_cases hf : env.fileExists = false
  · rw [main_run_file_false env hf] at h
    exact absurd h (by decide)
  · have hf2 : env.fileExists = true := by
      revert hf; cases env.fileExists <;> simp
    refine ⟨hf2, ?_⟩
    cases hp : env.probe with
    | none =>
      rw [main_run_probe_none env hf2 hp] at h
      exact absurd h (by decide)
    | some md => exact ⟨md, rfl⟩

/-- A transfer call appears in the trace only after a successful probe and a
successful negotiation, and its request is the one `upload_video_resumable`
builds from the negotiated URL and method, the resolved content type, and the
probed byte size. -/
theorem transfer_mem_elim (env : Env) (req : ResumableRequest)
    (h : Ev.transfer req ∈ (main_run env).2) :
    ∃ md v u m, env.fileExists = true ∧ env.probe = some md ∧
      get_upload_url_with_metadata env.negResponse = .ok v u m ∧
      req = upload_video_resumable_request u m
        (determine_content_type env.filePath env.explicitContentType) md.file_size := by
  by_cases hf : env.fileExists = false
  · rw [main_run_file_false env hf] at h
    exact absurd h (by simp)
  · have hf2 : env.fileExists = true := by
      revert hf; cases env.fileExists <;> simp
    cases hp : env.probe with
    | none =>
      rw [main_run_probe_none env hf2 hp] at h
      exact absurd h (by simp)
    | some md =>
      cases hn : get_upload_url_with_metadata env.negResponse with
      | limitExceeded d det =>
        rw [main_run_limit env md d det hf2 hp hn] at h
        exact absurd h (by simp)
      | invalidMetadata det =>
        rw [show main_run env = (.invalidMetadata det, [.checkFile, .probeCall, .negotiate])
          by simp [main_run, hf2, hp, hn]] at h
        exact absurd h (by simp)
      | transportFailure s =>
        rw [show main_run env = (.negotiationFailure s, [.checkFile, .probeCall, .negotiate])
          by simp [main_run, hf2, hp, hn]] at h
        exact absurd h (by simp)
      | missingField f =>
        rw [main_run_missing env md f hf2 hp hn] at h
        exact absurd h (by simp)
      | ok v u m =>
        refine ⟨md, v, u, m, hf2, rfl, rfl, ?_⟩
        rw [main_run_ok env md v u m hf2 hp hn] at h
        cases ht : upload_transfer_result env.transferStatus with
        | failed s msg =>
          rw [ht] at h
          simp at h
          exact h
        | ok =>
          rw [ht] at h
          cases hfin : finalize_upload env.finResponse with
          | ok =>
            rw [hfin] at h
            simp at h
            exact h
          | failed s d =>
            rw [hfin] at h
            simp at h
            exact h

example : determine_content_type "video.mp4" none = "video/mp4" := by decide
example : determine_content_type "video.MOV" none = "video/quicktime" := by decide
example : determine_content_type "clip.xyz" none = "video/mp4" := by decide
example : determine_content_type_specmodel "clip.xyz" none = "application/octet-stream" := by decide
example : determine_content_type "a/b.c/video" none = "video/mp4" := by decide
example : splitext_ext "dir/..hidden" = "" := by decide
example : splitext_ext "archive.tar.gz" = ".gz" := by decide
example : (upload_video_resumable_request "u" "post" "video/mp4" 7).httpMethod = "POST" := by decide
example : (upload_video_resumable_request "u" "PUT" "video/mp4" 7).headers = [("Content-Type", "video/mp4")] := by decide
example : upload_transfer_result 201 = .ok := by decide

example : mentions_duration "Video Duration exceeds the maximum" = true := by decide
example : mentions_duration "File too large or too long" = false := by decide
example : get_upload_url_with_metadata ⟨413, ⟨none, none, none, some "duration limit"⟩⟩ =
    .limitExceeded true "duration limit" := by decide
example : get_upload_url_with_metadata ⟨413, ⟨none, none, none, none⟩⟩ =
    .limitExceeded false "File too large or too long" := by decide
example : get_upload_url_with_metadata ⟨200, ⟨some "v1", some "https://store/x", some "POST", none⟩⟩ =
    .ok "v1" "https://store/x" "POST" := by decide
example : get_upload_url_with_metadata ⟨200, ⟨some "v1", none, some "POST", none⟩⟩ =
    .missingField "upload_url" := by decide
example : finalize_upload ⟨413, true, some "size limit hit"⟩ = .failed 413 "size limit hit" := by decide
example : finalize_upload ⟨500, false, some "ignored"⟩ = .failed 500 "Unknown error" := by decide
example : finalize_upload_specmodel ⟨413, true, some "duration too long"⟩ =
    .durationExceeded "duration too long" := by decide
example : handle_webhook_history [] true ⟨"t", "/webhook", none, "d"⟩ =
    [⟨"t", "/webhook", none, "d"⟩] := by decide

/-! ## Claim C5 — content-type resolution -/

/-- Claim C5 counterexample: for the extension `.xyz`, which is outside the
table, `determine_content_type` resolves `video/mp4` — the mp4 MIME type, not
a generic binary fallback as the claim states. -/
theorem C5_counterexample :
    determine_content_type "clip.xyz" none = "video/mp4" ∧
    determine_content_type_specmodel "clip.xyz" none = "application/octet-stream" ∧
    determine_content_type "clip.xyz" none ≠
      determine_content_type_specmodel "clip.xyz" none := by
  refine ⟨by decide, by decide, by decide⟩

/-- Claim C5 (amended): for every file path with no explicit (non-empty)
content-type override, the resolved content type is the table entry for the
path's lower-cased extension (the table covering mp4, mov, avi, webm, mkv,
m4v), and for every extension outside the table it is `video/mp4`, the code's
default — not a generic binary type; a non-empty explicit override is
returned unchanged. -/
theorem C5_content_type_resolution :
    ∀ (p : String) (e : Option String),
      (∀ s, e = some s → s ≠ "" → determine_content_type p e = s) ∧
      (e.getD "" = "" →
        ∀ ct, content_type_map.lookup (strLower (splitext_ext p)) = some ct →
          determine_content_type p e = ct) ∧
      (e.getD "" = "" →
        content_type_map.lookup (strLower (splitext_ext p)) = none →
          determine_content_type p e = "video/mp4") ∧
      (content_type_map.lookup ".mp4" = some "video/mp4" ∧
       content_type_map.lookup ".mov" = some "video/quicktime" ∧
       content_type_map.lookup ".avi" = some "video/x-msvideo" ∧
       content_type_map.lookup ".webm" = some "video/webm" ∧
       content_type_map.lookup ".mkv" = some "video/x-matroska" ∧
       content_type_map.lookup ".m4v" = some "video/x-m4v") := by
  intro p e
  refine ⟨?_, ?_, ?_, by decide⟩
  · intro s hs hne
    subst hs
    simp [determine_content_type, hne]
  · intro hempty ct hct
    cases e with
    | none => simp [determine_content_type, hct]
    | some s =>
      have hs : s = "" := by simpa using hempty
      subst hs
      simp [determine_content_type, hct]
  · intro hempty hnone
    cases e with
    | none => simp [determine_content_type, hnone]
    | some s =>
      have hs : s = "" := by simpa using hempty
      subst hs
      simp [determine_content_type, hnone]

/-- Claim C5 witness: the amended theorem applied at the concrete path
`clip.xyz` with no override. -/
theorem C5_witness :
    content_type_map.lookup (strLower (splitext_ext "clip.xyz")) = none ∧
    determine_content_type "clip.xyz" none = "video/mp4" :=
  ⟨by decide, (C5_content_type_resolution "clip.xyz" none).2.2.1 rfl (by decide)⟩

/-! ## Claim C7 — transfer success statuses -/

/-- Claim C7: the resumable transfer is reported successful exactly when the
HTTP status is 200, 201 or 204; every other status raises the failure carrying
the status. -/
theorem C7_transfer_status_check :
    ∀ s : Nat,
      (upload_transfer_result s = .ok ↔ (s = 200 ∨ s = 201 ∨ s = 204)) ∧
      (¬(s = 200 ∨ s = 201 ∨ s = 204) →
        upload_transfer_result s = .failed s ("Upload failed: HTTP " ++ toString s)) := by
  intro s
  constructor
  · constructor
    · intro h
      by_contra hc
      simp [upload_transfer_result, hc] at h
    · intro h
      simp [upload_transfer_result, h]
  · intro h
    simp [upload_transfer_result, h]

/-- Claim C7 witness: status 500 is not a success status and fails carrying
the status. -/
theorem C7_witness :
    ¬((500 : Nat) = 200 ∨ (500 : Nat) = 201 ∨ (500 : Nat) = 204) ∧
    upload_transfer_result 500 = .failed 500 ("Upload failed: HTTP " ++ toString 500) :=
  ⟨by decide, (C7_transfer_status_check 500).2 (by decide)⟩

/-! ## Claim C2 — finalize response handling -/

/-- Claim C2 counterexample: a finalize response with status 413 and a detail
mentioning duration.  The code reports the same generic failure shape it uses
for every non-200 status — it never branches on the detail string — while the
spec's taxonomy demands a distinct `DurationExceeded` classification; the two
reports do not correspond. -/
theorem C2_counterexample :
    finalize_upload ⟨413, true, some "duration exceeds maximum"⟩ =
      FinResult.failed 413 "duration exceeds maximum" ∧
    finalize_upload_specmodel ⟨413, true, some "duration exceeds maximum"⟩ =
      FinSpecResult.durationExceeded "duration exceeds maximum" ∧
    finalizeAgrees (finalize_upload ⟨413, true, some "duration exceeds maximum"⟩)
      (finalize_upload_specmodel ⟨413, true, some "duration exceeds maximum"⟩) = false := by
  refine ⟨by decide, by decide, by decide⟩

/-- Claim C2 (amended): for every finalize call, HTTP 200 is terminal success;
every non-200 status — 413 included — is reported through the single failure
path, raising an exception that carries the status, with the response's detail
string (when the body is JSON, else "Unknown error") surfaced alongside; no
duration-vs-size classification is performed at finalize, and a non-200 is
never reported as success. -/
theorem C2_finalize_reporting :
    ∀ r : FinalizeResponse,
      (finalize_upload r = .ok ↔ r.status = 200) ∧
      (r.status ≠ 200 →
        finalize_upload r = .failed r.status (finalize_error_detail r)) := by
  intro r
  constructor
  · constructor
    · intro h
      by_contra hc
      simp [finalize_upload, hc] at h
    · intro h
      simp [finalize_upload, h]
  · intro h
    simp [finalize_upload, h]

/-- Claim C2 witness: the amended theorem applied to the concrete 413
response with a duration-mentioning detail. -/
theorem C2_witness :
    (413 : Nat) ≠ 200 ∧
    finalize_upload ⟨413, true, some "duration exceeds maximum"⟩ =
      FinResult.failed 413 "duration exceeds maximum" := by
  refine ⟨by decide, ?_⟩
  have h := (C2_finalize_reporting ⟨413, true, some "duration exceeds maximum"⟩).2 (by decide)
  exact h

/-! ## Claim C1 — negotiation 413 is terminal -/

/-- Claim C1: whenever the negotiation call is made and its response is HTTP
413, the run terminates as the limit-exceeded rejection, classified as a
duration violation exactly when the response's detail string mentions
duration (size otherwise), and neither the transfer step nor the finalize
step is ever invoked. -/
theorem C1_negotiation_413_terminal :
    ∀ env : Env, env.negResponse.status = 413 →
      Ev.negotiate ∈ (main_run env).2 →
      (main_run env).1 =
        RunOutcome.limitExceeded
          (mentions_duration (env.negResponse.body.detail.getD "File too large or too long"))
          (env.negResponse.body.detail.getD "File too large or too long") ∧
      (∀ req, Ev.transfer req ∉ (main_run env).2) ∧
      Ev.finalize ∉ (main_run env).2 := by
  intro env h413 hneg
  obtain ⟨hf, md, hp⟩ := negotiate_mem_elim env hneg
  have hn : get_upload_url_with_metadata env.negResponse =
      .limitExceeded
        (mentions_duration (env.negResponse.body.detail.getD "File too large or too long"))
        (env.negResponse.body.detail.getD "File too large or too long") := by
    simp [get_upload_url_with_metadata, h413]
  rw [main_run_limit env md _ _ hf hp hn]
  refine ⟨rfl, ?_, by simp⟩
  intro req
  simp

/-- Claim C1 witness: the theorem applied to `envC1`; the run ends in the
duration-classified limit rejection and performs no transfer or finalize
call. -/
theorem C1_witness :
    envC1.negResponse.status = 413 ∧
    Ev.negotiate ∈ (main_run envC1).2 ∧
    (main_run envC1).1 =
      RunOutcome.limitExceeded
        (mentions_duration (envC1.negResponse.body.detail.getD "File too large or too long"))
        (envC1.negResponse.body.detail.getD "File too large or too long") ∧
    Ev.transfer (upload_video_resumable_request "https://store/x" "POST" "video/mp4" 50000000)
      ∉ (main_run envC1).2 ∧
    Ev.finalize ∉ (main_run envC1).2 := by
  have h := C1_negotiation_413_terminal envC1 (by decide) (by decide)
  exact ⟨by decide, by decide, h.1, h.2.1 _, h.2.2⟩

/-! ## Claim C8 — required fields on a 2xx negotiation response -/

/-- Claim C8: on a 2xx negotiation response, a missing `video_id`,
`upload_url` or `method` terminates the run as a protocol failure with no
transfer and no finalize call; when all three are present, exactly those
three values are returned to the next stage. -/
theorem C8_negotiation_required_fields :
    ∀ env : Env, 200 ≤ env.negResponse.status → env.negResponse.status < 300 →
      Ev.negotiate ∈ (main_run env).2 →
      ((env.negResponse.body.video_id = none ∨ env.negResponse.body.upload_url = none ∨
          env.negResponse.body.method = none) →
        (∃ f, (main_run env).1 = RunOutcome.missingFieldFailure f) ∧
        (∀ req, Ev.transfer req ∉ (main_run env).2) ∧
        Ev.finalize ∉ (main_run env).2) ∧
      (∀ v u m, env.negResponse.body.video_id = some v →
        env.negResponse.body.upload_url = some u →
        env.negResponse.body.method = some m →
        get_upload_url_with_metadata env.negResponse = NegResult.ok v u m) := by
  intro env h1 h2 hneg
  obtain ⟨hf, md, hp⟩ := negotiate_mem_elim env hneg
  have hshape := get_upload_url_2xx env.negResponse h1 h2
  constructor
  · intro hmiss
    have hex : ∃ f, get_upload_url_with_metadata env.negResponse = .missingField f := by
      rw [hshape]
      cases hv : env.negResponse.body.video_id with
      | none => exact ⟨"video_id", rfl⟩
      | some v =>
        cases hu : env.negResponse.body.upload_url with
        | none => exact ⟨"upload_url", rfl⟩
        | some u =>
          cases hm : env.negResponse.body.method with
          | none => exact ⟨"method", rfl⟩
          | some m =>
            exfalso
            rcases hmiss with h | h | h
            · rw [hv] at h; exact absurd h (by simp)
            · rw [hu] at h; exact absurd h (by simp)
            · rw [hm] at h; exact absurd h (by simp)
    obtain ⟨f, hn⟩ := hex
    rw [main_run_missing env md f hf hp hn]
    refine ⟨⟨f, rfl⟩, ?_, by simp⟩
    intro req
    simp
  · intro v u m hv hu hm
    rw [hshape, hv, hu, hm]

/-- Claim C8 witness: the theorem applied to `envC8`; the run ends as a
missing-field protocol failure without transfer or finalize calls. -/
theorem C8_witness :
    200 ≤ envC8.negResponse.status ∧ envC8.negResponse.status < 300 ∧
    Ev.negotiate ∈ (main_run envC8).2 ∧
    envC8.negResponse.body.method = none ∧
    (∃ f, (main_run envC8).1 = RunOutcome.missingFieldFailure f) ∧
    Ev.transfer (upload_video_resumable_request "https://store/x" "POST" "video/mp4" 50000000)
      ∉ (main_run envC8).2 ∧
    Ev.finalize ∉ (main_run envC8).2 := by
  have h := C8_negotiation_required_fields envC8 (by decide) (by decide) (by decide)
  have hm := h.1 (Or.inr (Or.inr (by decide)))
  exact ⟨by decide, by decide, by decide, by decide, hm.1, hm.2.1 _, hm.2.2⟩

/-! ## Claim C9 — local checks precede every network call -/

/-- Claim C9: a run whose file-existence check or metadata probe fails
performs no network call at all, and whenever any network call occurs, both
local checks succeeded and the trace begins with exactly the file-existence
check followed by the probe. -/
theorem C9_local_checks_before_network :
    ∀ env : Env,
      (¬(env.fileExists = true ∧ env.probe.isSome = true) →
        (main_run env).2.filter isNetworkCall = []) ∧
      ((main_run env).2.filter isNetworkCall ≠ [] →
        env.fileExists = true ∧ env.probe.isSome = true ∧
        (main_run env).2.take 2 = [Ev.checkFile, Ev.probeCall]) := by
  intro env
  by_cases hf : env.fileExists = false
  · rw [main_run_file_false env hf]
    constructor
    · intro _
      decide
    · intro hne
      exact absurd (by decide) hne
  · have hf2 : env.fileExists = true := by
      revert hf; cases env.fileExists <;> simp
    cases hp : env.probe with
    | none =>
      rw [main_run_probe_none env hf2 hp]
      constructor
      · intro _
        decide
      · intro hne
        exact absurd (by decide) hne
    | some md =>
      refine ⟨fun hc => absurd (And.intro hf2 rfl) hc, fun _ => ⟨hf2, rfl, ?_⟩⟩
      cases hn : get_upload_url_with_metadata env.negResponse with
      | limitExceeded d det => rw [main_run_limit env md d det hf2 hp hn]; rfl
      | invalidMetadata det =>
        rw [show main_run env = (.invalidMetadata det, [.checkFile, .probeCall, .negotiate])
          by simp [main_run, hf2, hp, hn]]
        rfl
      | transportFailure s =>
        rw [show main_run env = (.negotiationFailure s, [.checkFile, .probeCall, .negotiate])
          by simp [main_run, hf2, hp, hn]]
        rfl
      | missingField f => rw [main_run_missing env md f hf2 hp hn]; rfl
      | ok v u m =>
        rw [main_run_ok env md v u m hf2 hp hn]
        cases ht : upload_transfer_result env.transferStatus with
        | failed s msg => rfl
        | ok =>
          cases hfin : finalize_upload env.finResponse with
          | ok => rfl
          | failed s d => rfl

/-- Claim C9 witness: the theorem applied to `envC9`; no network call is in
the trace of a run on a non-existent file. -/
theorem C9_witness :
    ¬(envC9.fileExists = true ∧ envC9.probe.isSome = true) ∧
    (main_run envC9).2.filter isNetworkCall = [] := by
  refine ⟨by decide, ?_⟩
  exact (C9_local_checks_before_network envC9).1 (by decide)

/-! ## Claim C3 — executor branch is a function of the method tag -/

/-- Claim C3: the transfer mechanism is a total, exhaustive function of the
method tag alone — two targets with the same tag get the same mechanism
whatever their URLs — a resumable tag always yields the streamed-body
(never multipart) path, the signed-form tag always yields the multipart
(never streamed) path, and within the source's resumable executor the issued
request does not depend on the URL beyond carrying it as destination. -/
theorem C3_executor_dispatch :
    ∀ (t t2 : UploadTarget) (ct : String) (n : Nat),
      (t.method = t2.method →
        transfer_executor_mechanism t ct n = transfer_executor_mechanism t2 ct n) ∧
      ((t.method = .resumablePost ∨ t.method = .resumablePut) →
        transfer_executor_mechanism t ct n = .streamedBody) ∧
      (t.method = .signedForm →
        transfer_executor_mechanism t ct n = .multipartForm) ∧
      (∀ (url url2 m2 ct2 : String) (k : Nat),
        (upload_video_resumable_request url m2 ct2 k).httpMethod =
          (upload_video_resumable_request url2 m2 ct2 k).httpMethod ∧
        (upload_video_resumable_request url m2 ct2 k).headers =
          (upload_video_resumable_request url2 m2 ct2 k).headers ∧
        (upload_video_resumable_request url m2 ct2 k).bodyIsRawFile = true) := by
  intro t t2 ct n
  refine ⟨?_, ?_, ?_, ?_⟩
  · intro hm
    cases h1 : t.method <;> cases h2 : t2.method <;>
      simp [h1, h2] at hm ⊢ <;>
      simp [transfer_executor_mechanism, h1, h2, mechanism_resumable]
  · intro hm
    rcases hm with h | h <;> simp [transfer_executor_mechanism, h, mechanism_resumable]
  · intro hm
    simp [transfer_executor_mechanism, hm]
  · intro url url2 m2 ct2 k
    by_cases hm : strUpper m2 = "POST" <;>
      simp [upload_video_resumable_request, hm]

/-- Claim C3 witness: the theorem applied to two targets sharing the
resumable-post tag, and to the signed-form tag. -/
theorem C3_witness :
    tgtA.method = tgtB.method ∧
    transfer_executor_mechanism tgtA "video/mp4" 50 =
      transfer_executor_mechanism tgtB "video/mp4" 50 ∧
    transfer_executor_mechanism tgtA "video/mp4" 50 = .streamedBody ∧
    transfer_executor_mechanism ⟨"v3", "https://store/z", .signedForm, [("key", "k")]⟩
      "video/mp4" 50 = .multipartForm := by
  have h := C3_executor_dispatch tgtA tgtB "video/mp4" 50
  have h2 := C3_executor_dispatch ⟨"v3", "https://store/z", .signedForm, [("key", "k")]⟩
    tgtB "video/mp4" 50
  exact ⟨by decide, h.1 (by decide), h.2.1 (Or.inl (by decide)), h2.2.2.1 (by decide)⟩

/-! ## Claim C4 — legacy signed-form transfer -/

/-- Claim C4: in the signed-form transfer the signed fields are all placed
before the file part of the multipart body, success is recognized exactly by
HTTP 204, HTTP 400 is reported as the policy rejection, and any other status
is a transfer transport failure carrying status and body. -/
theorem C4_signed_form_transfer :
    ∀ (fields : List (String × String)) (fn ct body : String) (status : Nat),
      signed_form_parts fields fn ct =
        fields.map (fun p => FormPart.field p.1 p.2) ++
          [FormPart.filePart "file" fn ct] ∧
      (∀ part ∈ (signed_form_parts fields fn ct).take fields.length,
        ∃ nm v, part = FormPart.field nm v) ∧
      (signed_form_parts fields fn ct).getLast? =
        some (FormPart.filePart "file" fn ct) ∧
      (signed_form_outcome status body = .ok ↔ status = 204) ∧
      (status = 400 → signed_form_outcome status body = .policyRejected body) ∧
      (status ≠ 204 → status ≠ 400 →
        signed_form_outcome status body = .transportFailure status body) := by
  intro fields fn ct body status
  refine ⟨rfl, ?_, ?_, ?_, ?_, ?_⟩
  · intro part hpart
    have hlen : fields.length = (fields.map (fun p => FormPart.field p.1 p.2)).length := by
      simp
    rw [show signed_form_parts fields fn ct =
        fields.map (fun p => FormPart.field p.1 p.2) ++ [FormPart.filePart "file" fn ct]
      from rfl, hlen, List.take_left] at hpart
    obtain ⟨p, _hp, hpe⟩ := List.mem_map.mp hpart
    exact ⟨p.1, p.2, hpe.symm⟩
  · simp [signed_form_parts]
  · constructor
    · intro h
      by_contra hc
      unfold signed_form_outcome at h
      rw [if_neg hc] at h
      by_cases h4 : status = 400
      · rw [if_pos h4] at h
        exact absurd h (by simp)
      · rw [if_neg h4] at h
        exact absurd h (by simp)
    · intro h
      simp [signed_form_outcome, h]
  · intro h
    simp [signed_form_outcome, h]
  · intro h1 h2
    simp [signed_form_outcome, h1, h2]

/-- Claim C4 witness: the theorem applied with one signed field, a 400
response, and a 502 response. -/
theorem C4_witness :
    signed_form_parts [("key", "k")] "a.mp4" "video/mp4" =
      [FormPart.field "key" "k", FormPart.filePart "file" "a.mp4" "video/mp4"] ∧
    signed_form_outcome 400 "too large" = .policyRejected "too large" ∧
    ¬(signed_form_outcome 204 "" = .ok ↔ False) ∧
    signed_form_outcome 502 "gateway" = .transportFailure 502 "gateway" := by
  have h := C4_signed_form_transfer [("key", "k")] "a.mp4" "video/mp4" "too large" 400
  have h2 := C4_signed_form_transfer [("key", "k")] "a.mp4" "video/mp4" "gateway" 502
  refine ⟨by decide, h.2.2.2.2.1 rfl, by decide, h2.2.2.2.2.2 (by decide) (by decide)⟩

/-! ## Claim C6 — resumable request body and headers -/

/-- Claim C6 counterexample: for the resumable PUT method tag, the declared
headers are only `Content-Type` — the request carries neither a declared
`Content-Length` nor the `x-goog-resumable` session-initiation marker, so the
claim's "this holds for both the resumable POST and the resumable PUT method
tags" fails on the PUT branch. -/
theorem C6_counterexample :
    (upload_video_resumable_request "https://store/x" "PUT" "video/mp4" 123).headers =
      [("Content-Type", "video/mp4")] ∧
    (upload_video_resumable_request "https://store/x" "PUT" "video/mp4" 123).headers.lookup
      "x-goog-resumable" = none ∧
    (upload_video_resumable_request "https://store/x" "PUT" "video/mp4" 123).headers.lookup
      "Content-Length" = none := by
  refine ⟨by decide, by decide, by decide⟩

/-- Claim C6 (amended): every transfer request issued by a run streams the
file as a raw, non-multipart body; when the method tag selects the resumable
POST branch the declared headers carry a `Content-Length` equal to the byte
size reported by the metadata probe and the `x-goog-resumable: start`
initiation marker, while the PUT branch declares only the content type — no
explicit length and no marker. -/
theorem C6_resumable_request_headers :
    ∀ (env : Env) (req : ResumableRequest),
      Ev.transfer req ∈ (main_run env).2 →
      req.bodyIsRawFile = true ∧
      ∃ md, env.probe = some md ∧
        (req.httpMethod = "POST" →
          req.headers.lookup "Content-Length" = some (toString md.file_size) ∧
          req.headers.lookup "x-goog-resumable" = some "start") ∧
        (req.httpMethod = "PUT" →
          req.headers =
            [("Content-Type", determine_content_type env.filePath env.explicitContentType)]) := by
  intro env req h
  obtain ⟨md, v, u, m, _hf, hp, _hn, hreq⟩ := transfer_mem_elim env req h
  subst hreq
  refine ⟨resumable_request_raw _ _ _ _, md, hp, ?_, ?_⟩
  · intro _hpost
    by_cases hm : strUpper m = "POST"
    · simp [upload_video_resumable_request, hm, List.lookup]
    · exfalso
      simp [upload_video_resumable_request, hm] at _hpost
  · intro hput
    by_cases hm : strUpper m = "POST"
    · exfalso
      simp [upload_video_resumable_request, hm] at hput
    · simp [upload_video_resumable_request, hm]

/-- Claim C6 witness: the theorem applied to `envC6`; the issued PUT request
streams a raw body and declares only the content type. -/
theorem C6_witness :
    Ev.transfer reqC6 ∈ (main_run envC6).2 ∧
    reqC6.bodyIsRawFile = true ∧
    reqC6.headers = [("Content-Type", "video/mp4")] := by
  have h := C6_resumable_request_headers envC6 reqC6 (by decide)
  refine ⟨by decide, h.1, ?_⟩
  obtain ⟨md, _hmd, _hpost, hput⟩ := h.2
  exact (hput (by decide)).trans (by decide)

/-! ## Claim C10 — webhook history bound -/

/-- Claim C10: starting from a history within the bound, every handled webhook
request leaves at most `MAX_HISTORY` (100) entries, appending at the tail and
removing the oldest entry from the front exactly when the bound would be
exceeded, and the `/history` endpoint returns at most the 10 most recent
entries (a suffix of the history). -/
theorem C10_history_bound :
    ∀ (h : List WebhookEntry) (b : Bool) (e : WebhookEntry),
      h.length ≤ MAX_HISTORY →
      (handle_webhook_history h b e).length ≤ MAX_HISTORY ∧
      (b = true → (h ++ [e]).length ≤ MAX_HISTORY →
        handle_webhook_history h b e = h ++ [e]) ∧
      (b = true → MAX_HISTORY < (h ++ [e]).length →
        handle_webhook_history h b e = (h ++ [e]).drop 1) ∧
      (history_endpoint (handle_webhook_history h b e)).2.length ≤ 10 ∧
      (history_endpoint (handle_webhook_history h b e)).2 =
        (handle_webhook_history h b e).drop
          ((handle_webhook_history h b e).length - 10) := by
  intro h b e hbound
  have hview : ∀ l : List WebhookEntry,
      (history_endpoint l).2.length ≤ 10 ∧
      (history_endpoint l).2 = l.drop (l.length - 10) := by
    intro l
    constructor
    · simp [history_endpoint]
      omega
    · rfl
  cases b with
  | false =>
    refine ⟨by simpa [handle_webhook_history] using hbound, ?_, ?_,
      (hview _).1, (hview _).2⟩
    · intro hb
      exact absurd hb (by simp)
    · intro hb
      exact absurd hb (by simp)
  | true =>
    by_cases hc : MAX_HISTORY < (h ++ [e]).length
    · have hh : handle_webhook_history h true e = (h ++ [e]).drop 1 := by
        unfold handle_webhook_history
        rw [if_neg (by simp)]
        show (if MAX_HISTORY < (h ++ [e]).length then (h ++ [e]).drop 1 else h ++ [e]) =
          (h ++ [e]).drop 1
        rw [if_pos hc]
      refine ⟨?_, ?_, fun _ _ => hh, (hview _).1, (hview _).2⟩
      · rw [hh]
        simp at hc ⊢
        omega
      · intro _ hle
        exfalso
        simp at hc hle
        omega
    · have hh : handle_webhook_history h true e = h ++ [e] := by
        unfold handle_webhook_history
        rw [if_neg (by simp)]
        show (if MAX_HISTORY < (h ++ [e]).length then (h ++ [e]).drop 1 else h ++ [e]) =
          h ++ [e]
        rw [if_neg hc]
      refine ⟨?_, fun _ _ => hh, ?_, (hview _).1, (hview _).2⟩
      · rw [hh]
        simp at hc ⊢
        omega
      · intro _ hgt
        exfalso
        simp at hc hgt
        omega

/-- Claim C10 witness: the theorem applied to the empty history and one
handled webhook. -/
theorem C10_witness :
    ([] : List WebhookEntry).length ≤ MAX_HISTORY ∧
    (handle_webhook_history [] true entryW).length ≤ MAX_HISTORY ∧
    handle_webhook_history [] true entryW = [] ++ [entryW] ∧
    (history_endpoint (handle_webhook_history [] true entryW)).2.length ≤ 10 := by
  have h := C10_history_bound [] true entryW (by decide)
  exact ⟨by decide, h.1, h.2.1 rfl (by decide), h.2.2.2.1⟩
